import Mathlib

/-!
Verification of the Solo-Machine IBC Transaction Builder
(src/solo-machine/src/transaction_builder.rs).

The builder itself is translated from the source file.  Its external
collaborators (chain service, query handler, mnemonic/key derivation,
protobuf encoding, gRPC/RPC transport) are not part of the given source;
they are modelled from the specification, each with a doc comment saying
so.  Protobuf encoding is modelled as a deterministic, structurally
faithful serialisation into lists of naturals; ECDSA signing is modelled
as a deterministic function of the key and the message (the source uses
RFC6979-style deterministic ECDSA), with the signature content abstracted.
-/

/-- Byte strings are modelled as lists of naturals. -/
abbrev Bytes := List Nat

/-- Modelled from the spec: UTF-8 bytes of a string (code points stand in
for bytes; all strings involved are ASCII). -/
def strBytes (s : String) : Bytes := s.data.map Char.toNat

def encNat (n : Nat) : Bytes := [n]

def encStr (s : String) : Bytes := (strBytes s).length :: strBytes s

def encBytes (b : Bytes) : Bytes := b.length :: b

def encList {A : Type} (f : A → Bytes) (xs : List A) : Bytes :=
  xs.length :: (xs.map f).flatten

def encOpt {A : Type} (f : A → Bytes) : Option A → Bytes
  | none => [0]
  | some a => 1 :: f a

def encBool (b : Bool) : Bytes := [cond b 1 0]

def encInt : Int → Bytes
  | Int.ofNat n => [0, n]
  | Int.negSucc n => [1, n]

/-- Protobuf `Any`: a type-URL-tagged envelope. -/
structure Any where
  type_url : String
  value : Bytes
deriving DecidableEq

def encodeAny (a : Any) : Bytes := [1] ++ encStr a.type_url ++ encBytes a.value

/-- `ibc.core.client.v1.Height`. -/
structure Height where
  revision_number : Nat
  revision_height : Nat
deriving DecidableEq

def encodeHeight (h : Height) : Bytes :=
  [2] ++ encNat h.revision_number ++ encNat h.revision_height

/-- `Height::zero()` from the `ibc` crate. -/
def Height.zero : Height := { revision_number := 0, revision_height := 0 }

/-- `Height::new(revision_number, revision_height)` from the `ibc` crate. -/
def Height.new (rn rh : Nat) : Height :=
  { revision_number := rn, revision_height := rh }

/-- Solo-machine `DataType` enum tag (proto numbering of
`ibc.lightclients.solomachine.v1.DataType`). -/
inductive DataType where
  | clientState
  | consensusState
  | connectionState
  | channelState
deriving DecidableEq

def DataType.toTag : DataType → Nat
  | .clientState => 1
  | .consensusState => 2
  | .connectionState => 3
  | .channelState => 4

/-- `ibc.lightclients.solomachine.v1.SignBytes`. -/
structure SignBytes where
  sequence : Nat
  timestamp : Nat
  diversifier : String
  data_type : Nat
  data : Bytes
deriving DecidableEq

def encodeSignBytes (sb : SignBytes) : Bytes :=
  [3] ++ encNat sb.sequence ++ encNat sb.timestamp ++ encStr sb.diversifier
    ++ encNat sb.data_type ++ encBytes sb.data

/-- `SignatureData { sum = Some(Single { signature, mode }) }` — only the
`Single` variant is used by the source, so the sum is flattened. -/
structure SignatureData where
  signature : Bytes
  mode : Nat
deriving DecidableEq

def encodeSignatureData (sd : SignatureData) : Bytes :=
  [4] ++ encBytes sd.signature ++ encNat sd.mode

/-- `ibc.lightclients.solomachine.v1.TimestampedSignatureData`. -/
structure TimestampedSignatureData where
  signature_data : Bytes
  timestamp : Nat
deriving DecidableEq

def encodeTimestampedSignatureData (t : TimestampedSignatureData) : Bytes :=
  [5] ++ encBytes t.signature_data ++ encNat t.timestamp

/-- Counterparty connection end, an opaque object obtained from the query
handler (its own structure is irrelevant to the builder). -/
structure ConnectionEnd where
  raw : Bytes
deriving DecidableEq

def encodeConnectionEnd (c : ConnectionEnd) : Bytes := [6] ++ encBytes c.raw

/-- `ibc.core.channel.v1.Counterparty`. -/
structure ChannelCounterparty where
  port_id : String
  channel_id : String
deriving DecidableEq

def encodeChannelCounterparty (c : ChannelCounterparty) : Bytes :=
  [7] ++ encStr c.port_id ++ encStr c.channel_id

/-- `ibc.core.channel.v1.Channel`; `state` and `ordering` carry the proto
enum numbers (`State::Init = 1`, `Order::Unordered = 1`). -/
structure Channel where
  state : Nat
  ordering : Nat
  counterparty : Option ChannelCounterparty
  connection_hops : List String
  version : String
deriving DecidableEq

def encodeChannel (c : Channel) : Bytes :=
  [8] ++ encNat c.state ++ encNat c.ordering
    ++ encOpt encodeChannelCounterparty c.counterparty
    ++ encList encStr c.connection_hops ++ encStr c.version

/-- Proto enum value `ibc.core.channel.v1.State::Init`. -/
def channelStateInit : Nat := 1

/-- Proto enum value `ibc.core.channel.v1.Order::Unordered`. -/
def channelOrderUnordered : Nat := 1

/-- `ClientStateData` (solo-machine proof payload for a client state). -/
structure ClientStateData where
  path : Bytes
  client_state : Option Any
deriving DecidableEq

def encodeClientStateData (d : ClientStateData) : Bytes :=
  [9] ++ encBytes d.path ++ encOpt encodeAny d.client_state

/-- `ConsensusStateData` (solo-machine proof payload for a consensus state). -/
structure ConsensusStateData where
  path : Bytes
  consensus_state : Option Any
deriving DecidableEq

def encodeConsensusStateData (d : ConsensusStateData) : Bytes :=
  [10] ++ encBytes d.path ++ encOpt encodeAny d.consensus_state

/-- `ConnectionStateData` (solo-machine proof payload for a connection end). -/
structure ConnectionStateData where
  path : Bytes
  connection : Option ConnectionEnd
deriving DecidableEq

def encodeConnectionStateData (d : ConnectionStateData) : Bytes :=
  [11] ++ encBytes d.path ++ encOpt encodeConnectionEnd d.connection

/-- `ChannelStateData` (solo-machine proof payload for a channel end). -/
structure ChannelStateData where
  path : Bytes
  channel : Option Channel
deriving DecidableEq

def encodeChannelStateData (d : ChannelStateData) : Bytes :=
  [12] ++ encBytes d.path ++ encOpt encodeChannel d.channel

/-- `ibc.lightclients.solomachine.v1.ConsensusState`. -/
structure SoloMachineConsensusState where
  public_key : Option Any
  diversifier : String
  timestamp : Nat
deriving DecidableEq

def encodeSoloMachineConsensusState (c : SoloMachineConsensusState) : Bytes :=
  [13] ++ encOpt encodeAny c.public_key ++ encStr c.diversifier ++ encNat c.timestamp

def SoloMachineConsensusState.toAny (c : SoloMachineConsensusState) : Any :=
  { type_url := "/ibc.lightclients.solomachine.v1.ConsensusState",
    value := encodeSoloMachineConsensusState c }

/-- `ibc.lightclients.solomachine.v1.ClientState`. -/
structure SoloMachineClientState where
  sequence : Nat
  frozen_sequence : Nat
  consensus_state : Option SoloMachineConsensusState
  allow_update_after_proposal : Bool
deriving DecidableEq

def encodeSoloMachineClientState (c : SoloMachineClientState) : Bytes :=
  [14] ++ encNat c.sequence ++ encNat c.frozen_sequence
    ++ encOpt encodeSoloMachineConsensusState c.consensus_state
    ++ encBool c.allow_update_after_proposal

def SoloMachineClientState.toAny (c : SoloMachineClientState) : Any :=
  { type_url := "/ibc.lightclients.solomachine.v1.ClientState",
    value := encodeSoloMachineClientState c }

/-- `ibc.core.client.v1.MsgCreateClient`. -/
structure MsgCreateClient where
  client_state : Option Any
  consensus_state : Option Any
  signer : String
deriving DecidableEq

def encodeMsgCreateClient (m : MsgCreateClient) : Bytes :=
  [15] ++ encOpt encodeAny m.client_state ++ encOpt encodeAny m.consensus_state
    ++ encStr m.signer

def MsgCreateClient.toAny (m : MsgCreateClient) : Any :=
  { type_url := "/ibc.core.client.v1.MsgCreateClient",
    value := encodeMsgCreateClient m }

/-- `ibc.core.commitment.v1.MerklePrefix`; the field models `key_prefix`. -/
structure MerklePfx where
  key_pfx : Bytes
deriving DecidableEq

def encodeMerklePfx (m : MerklePfx) : Bytes := [16] ++ encBytes m.key_pfx

/-- `ibc.core.connection.v1.Counterparty`; the field `pfx` models `prefix`. -/
structure ConnectionCounterparty where
  client_id : String
  connection_id : String
  pfx : Option MerklePfx
deriving DecidableEq

def encodeConnectionCounterparty (c : ConnectionCounterparty) : Bytes :=
  [17] ++ encStr c.client_id ++ encStr c.connection_id ++ encOpt encodeMerklePfx c.pfx

/-- `ibc.core.connection.v1.Version`. -/
structure ConnectionVersion where
  identifier : String
  features : List String
deriving DecidableEq

def encodeConnectionVersion (v : ConnectionVersion) : Bytes :=
  [18] ++ encStr v.identifier ++ encList encStr v.features

/-- `ibc.core.connection.v1.MsgConnectionOpenInit`. -/
structure MsgConnectionOpenInit where
  client_id : String
  counterparty : Option ConnectionCounterparty
  version : Option ConnectionVersion
  delay_period : Nat
  signer : String
deriving DecidableEq

def encodeMsgConnectionOpenInit (m : MsgConnectionOpenInit) : Bytes :=
  [19] ++ encStr m.client_id ++ encOpt encodeConnectionCounterparty m.counterparty
    ++ encOpt encodeConnectionVersion m.version ++ encNat m.delay_period
    ++ encStr m.signer

def MsgConnectionOpenInit.toAny (m : MsgConnectionOpenInit) : Any :=
  { type_url := "/ibc.core.connection.v1.MsgConnectionOpenInit",
    value := encodeMsgConnectionOpenInit m }

/-- `ibc.core.connection.v1.MsgConnectionOpenAck`. -/
structure MsgConnectionOpenAck where
  connection_id : String
  counterparty_connection_id : String
  version : Option ConnectionVersion
  client_state : Option Any
  proof_height : Option Height
  proof_try : Bytes
  proof_client : Bytes
  proof_consensus : Bytes
  consensus_height : Option Height
  signer : String
deriving DecidableEq

def encodeMsgConnectionOpenAck (m : MsgConnectionOpenAck) : Bytes :=
  [20] ++ encStr m.connection_id ++ encStr m.counterparty_connection_id
    ++ encOpt encodeConnectionVersion m.version ++ encOpt encodeAny m.client_state
    ++ encOpt encodeHeight m.proof_height ++ encBytes m.proof_try
    ++ encBytes m.proof_client ++ encBytes m.proof_consensus
    ++ encOpt encodeHeight m.consensus_height ++ encStr m.signer

def MsgConnectionOpenAck.toAny (m : MsgConnectionOpenAck) : Any :=
  { type_url := "/ibc.core.connection.v1.MsgConnectionOpenAck",
    value := encodeMsgConnectionOpenAck m }

/-- `ibc.core.channel.v1.MsgChannelOpenInit`. -/
structure MsgChannelOpenInit where
  port_id : String
  channel : Option Channel
  signer : String
deriving DecidableEq

def encodeMsgChannelOpenInit (m : MsgChannelOpenInit) : Bytes :=
  [21] ++ encStr m.port_id ++ encOpt encodeChannel m.channel ++ encStr m.signer

def MsgChannelOpenInit.toAny (m : MsgChannelOpenInit) : Any :=
  { type_url := "/ibc.core.channel.v1.MsgChannelOpenInit",
    value := encodeMsgChannelOpenInit m }

/-- `ibc.core.channel.v1.MsgChannelOpenAck`. -/
structure MsgChannelOpenAck where
  port_id : String
  channel_id : String
  counterparty_channel_id : String
  counterparty_version : String
  proof_height : Option Height
  proof_try : Bytes
  signer : String
deriving DecidableEq

def encodeMsgChannelOpenAck (m : MsgChannelOpenAck) : Bytes :=
  [22] ++ encStr m.port_id ++ encStr m.channel_id ++ encStr m.counterparty_channel_id
    ++ encStr m.counterparty_version ++ encOpt encodeHeight m.proof_height
    ++ encBytes m.proof_try ++ encStr m.signer

def MsgChannelOpenAck.toAny (m : MsgChannelOpenAck) : Any :=
  { type_url := "/ibc.core.channel.v1.MsgChannelOpenAck",
    value := encodeMsgChannelOpenAck m }

/-- `ibc.lightclients.tendermint.v1.Fraction`. -/
structure Fraction where
  numerator : Nat
  denominator : Nat
deriving DecidableEq

def encodeFraction (f : Fraction) : Bytes :=
  [23] ++ encNat f.numerator ++ encNat f.denominator

/-- `ibc.lightclients.tendermint.v1.ClientState`; `proof_specs` carries the
opaque encoding of the canonical ICS-23 proof specs. -/
structure TendermintClientState where
  chain_id : String
  trust_level : Option Fraction
  trusting_period : Option Int
  unbonding_period : Option Int
  max_clock_drift : Option Int
  frozen_height : Option Height
  latest_height : Option Height
  proof_specs : Bytes
  upgrade_path : List String
  allow_update_after_expiry : Bool
  allow_update_after_misbehaviour : Bool
deriving DecidableEq

def encodeTendermintClientState (c : TendermintClientState) : Bytes :=
  [24] ++ encStr c.chain_id ++ encOpt encodeFraction c.trust_level
    ++ encOpt encInt c.trusting_period ++ encOpt encInt c.unbonding_period
    ++ encOpt encInt c.max_clock_drift ++ encOpt encodeHeight c.frozen_height
    ++ encOpt encodeHeight c.latest_height ++ encBytes c.proof_specs
    ++ encList encStr c.upgrade_path ++ encBool c.allow_update_after_expiry
    ++ encBool c.allow_update_after_misbehaviour

def TendermintClientState.toAny (c : TendermintClientState) : Any :=
  { type_url := "/ibc.lightclients.tendermint.v1.ClientState",
    value := encodeTendermintClientState c }

/-- Modelled from the spec: the canonical ICS-23 proof specs produced by
`proof_specs()` of the `ibc` crate, kept opaque. -/
def canonicalProofSpecs : Bytes := [42]

/-- A Tendermint block header, kept opaque (the builder never inspects it). -/
structure Header where
  raw : Bytes
deriving DecidableEq

/-- `ibc.lightclients.tendermint.v1.ConsensusState`, built from a block
header by `TendermintConsensusState::from_block_header`; kept opaque. -/
structure TendermintConsensusState where
  header : Header
deriving DecidableEq

def TendermintConsensusState.from_block_header (h : Header) : TendermintConsensusState :=
  { header := h }

/-- Counterparty consensus state obtained from the query handler, an opaque
object wrapped into `Any` by `to_any`. -/
structure CounterpartyConsensusState where
  raw : Bytes
deriving DecidableEq

def CounterpartyConsensusState.toAny (c : CounterpartyConsensusState) : Any :=
  { type_url := "/ibc.lightclients.tendermint.v1.ConsensusState", value := c.raw }

/-- `cosmos.base.v1beta1.Coin`. -/
structure Coin where
  denom : String
  amount : String
deriving DecidableEq

def encodeCoin (c : Coin) : Bytes := [25] ++ encStr c.denom ++ encStr c.amount

/-- `cosmos.tx.v1beta1.Fee`. -/
structure Fee where
  amount : List Coin
  gas_limit : Nat
  payer : String
  granter : String
deriving DecidableEq

def encodeFee (f : Fee) : Bytes :=
  [26] ++ encList encodeCoin f.amount ++ encNat f.gas_limit ++ encStr f.payer
    ++ encStr f.granter

/-- `cosmos.tx.v1beta1.ModeInfo` with the `Single` sum variant flattened
(the source always builds `ModeInfo { sum = Some(Single { mode }) }`). -/
structure ModeInfo where
  mode : Nat
deriving DecidableEq

def encodeModeInfo (m : ModeInfo) : Bytes := [27] ++ encNat m.mode

/-- `cosmos.tx.v1beta1.SignerInfo`. -/
structure SignerInfo where
  public_key : Option Any
  mode_info : Option ModeInfo
  sequence : Nat
deriving DecidableEq

def encodeSignerInfo (s : SignerInfo) : Bytes :=
  [28] ++ encOpt encodeAny s.public_key ++ encOpt encodeModeInfo s.mode_info
    ++ encNat s.sequence

/-- `cosmos.tx.v1beta1.AuthInfo`. -/
structure AuthInfo where
  signer_infos : List SignerInfo
  fee : Option Fee
deriving DecidableEq

def encodeAuthInfo (a : AuthInfo) : Bytes :=
  [29] ++ encList encodeSignerInfo a.signer_infos ++ encOpt encodeFee a.fee

/-- `cosmos.tx.v1beta1.TxBody`. -/
structure TxBody where
  messages : List Any
  memo : String
  timeout_height : Nat
  extension_options : List Any
  non_critical_extension_options : List Any
deriving DecidableEq

def encodeTxBody (b : TxBody) : Bytes :=
  [30] ++ encList encodeAny b.messages ++ encStr b.memo ++ encNat b.timeout_height
    ++ encList encodeAny b.extension_options
    ++ encList encodeAny b.non_critical_extension_options

/-- `cosmos.tx.v1beta1.SignDoc`. -/
structure SignDoc where
  body_bytes : Bytes
  auth_info_bytes : Bytes
  chain_id : String
  account_number : Nat
deriving DecidableEq

def encodeSignDoc (d : SignDoc) : Bytes :=
  [31] ++ encBytes d.body_bytes ++ encBytes d.auth_info_bytes ++ encStr d.chain_id
    ++ encNat d.account_number

/-- `cosmos.tx.v1beta1.TxRaw`. -/
structure TxRaw where
  body_bytes : Bytes
  auth_info_bytes : Bytes
  signatures : List Bytes
deriving DecidableEq

/-- `cosmos.auth.v1beta1.BaseAccount` (only the fields the builder reads). -/
structure BaseAccount where
  account_number : Nat
  sequence : Nat
deriving DecidableEq

/-- Modelled from the spec: chain fee configuration `{denom, amount, gas_limit}`. -/
structure ChainFee where
  denom : String
  amount : Nat
  gas_limit : Nat
deriving DecidableEq

/-- Modelled from the spec: the rational trust level of a chain `{numer, denom}`. -/
structure TrustLevel where
  numer : Nat
  denom : Nat
deriving DecidableEq

/-- Modelled from the spec: the `Chain` configuration record (source file
`service/chain.rs` is not part of the given source).  `id` models
`chain.id.to_string()`; `account_hrp` models `account_prefix` (the bech32
HRP); durations are signed values kept abstract. -/
structure Chain where
  id : String
  grpc_addr : String
  rpc_addr : String
  account_hrp : String
  fee : ChainFee
  trust_level : TrustLevel
  trusting_period : Int
  unbonding_period : Int
  max_clock_drift : Int
  port_id : String
  diversifier : String
  consensus_timestamp : Nat
  sequence : Nat
deriving DecidableEq

/-- Modelled from the spec: the chain service, a store of chains keyed by
chain id, with `get` and `increment_sequence` (returning the
post-increment snapshot). -/
structure ChainService where
  chains : String → Option Chain

def ChainService.get (s : ChainService) (id : String) : Option Chain :=
  s.chains id

/-- Modelled from the spec: `increment_sequence` advances the sequence of the stored
chain by one and returns the post-increment snapshot. -/
def ChainService.increment_sequence (s : ChainService) (id : String) :
    Except String (Chain × ChainService) :=
  match s.chains id with
  | none => Except.error ("chain with id " ++ id ++ " not found")
  | some c =>
    let c2 := { c with sequence := c.sequence + 1 }
    Except.ok (c2, ⟨fun i => if i = id then some c2 else s.chains i⟩)

/-- Modelled from the spec: the query handler for locally stored IBC
objects, each lookup returning `Option`. -/
structure QueryHandler where
  client_state : String → Option TendermintClientState
  consensus_state : String → Height → Option CounterpartyConsensusState
  connection : String → Option ConnectionEnd
  channel : String → String → Option Channel

/-- Modelled from the spec: the auth-module gRPC `Account` query, keyed by
bech32 address; `none` merges transport failure, missing account and
decode failure. -/
structure AuthClient where
  account : String → Option BaseAccount

/-- Modelled from the spec: the Tendermint RPC `status` response fields the
builder reads. -/
structure StatusResponse where
  catching_up : Bool
  network : String
  latest_block_height : Nat
deriving DecidableEq

/-- Modelled from the spec: the Tendermint RPC client; `status = none`
models RPC failure, `block_header h = none` a failed `block` query. -/
structure RpcClient where
  status : Option StatusResponse
  block_header : Nat → Option Header

/-- Modelled from the spec: a mnemonic; key derivation is a deterministic
function of it, so the derived scalar is the representative. -/
structure Mnemonic where
  signing_key : Nat
deriving DecidableEq

/-- Modelled from the spec: deterministic ECDSA signing (RFC6979 style, raw
`r||s`); the signature content is abstracted but depends on exactly the key
and the message. -/
def ecdsaSign (key : Nat) (msg : Bytes) : Bytes := key :: msg

def Mnemonic.to_signing_key (m : Mnemonic) : Nat := m.signing_key

/-- Modelled from the spec: compressed SEC1 public key bytes derived from
the mnemonic. -/
def Mnemonic.public_key_bytes (m : Mnemonic) : Bytes := 2 :: encNat m.signing_key

/-- `to_public_key()?.to_any()?`: the compressed public key wrapped as `Any`
with the canonical Cosmos pubkey type URL. -/
def Mnemonic.public_key_any (m : Mnemonic) : Any :=
  { type_url := "/cosmos.crypto.secp256k1.PubKey", value := m.public_key_bytes }

/-- Modelled from the spec: bech32 account address derived from the
compressed public key and the HRP; the hash chain is abstracted but the
address depends on exactly the mnemonic and the HRP. -/
def Mnemonic.account_address (m : Mnemonic) (hrp : String) : String :=
  hrp ++ "1" ++ toString m.signing_key

/-- The transaction builder (`TransactionBuilder`); the chain service is
threaded explicitly as state instead of being borrowed. -/
structure TransactionBuilder where
  chain_id : String
  mnemonic : Mnemonic
  memo : String

/-- Modelled from the spec: `ChainId::version()` — the numeric revision
suffix of a chain identifier of the form `name-version`, `0` otherwise. -/
def chainIdVersion (s : String) : Nat :=
  match (s.splitOn "-").getLast? with
  | none => 0
  | some t =>
    match t.toNat? with
    | none => 0
    | some n => if (s.splitOn "-").length ≥ 2 then n else 0

/-- `fn sign(chain, mnemonic, sign_bytes)` (transaction_builder.rs:663). -/
def sign (chain : Chain) (mnemonic : Mnemonic) (sign_bytes : SignBytes) : Bytes :=
  let sign_bytes_enc := encodeSignBytes sign_bytes
  let signature := ecdsaSign mnemonic.to_signing_key sign_bytes_enc
  let signature_data : SignatureData := { signature := signature, mode := 0 }
  let signature_data_bytes := encodeSignatureData signature_data
  let timestamped_signature_data : TimestampedSignatureData :=
    { signature_data := signature_data_bytes, timestamp := chain.consensus_timestamp }
  encodeTimestampedSignatureData timestamped_signature_data

/-- Modelled from the spec: ICS-24 channel path with the commitment
`"ibc"` prepended. -/
def channelPath (port_id channel_id : String) : String :=
  "ibc/channelEnds/ports/" ++ port_id ++ "/channels/" ++ channel_id

/-- Modelled from the spec: ICS-24 connection path with the commitment
`"ibc"` prepended. -/
def connectionPath (connection_id : String) : String :=
  "ibc/connections/" ++ connection_id

/-- Modelled from the spec: ICS-24 client-state path with the commitment
`"ibc"` prepended. -/
def clientStatePath (client_id : String) : String :=
  "ibc/clients/" ++ client_id ++ "/clientState"

/-- Modelled from the spec: ICS-24 consensus-state path with the commitment
`"ibc"` prepended. -/
def consensusStatePath (client_id : String) (h : Height) : String :=
  "ibc/clients/" ++ client_id ++ "/consensusStates/"
    ++ toString h.revision_number ++ "-" ++ toString h.revision_height

/-- `fn get_channel_proof` (transaction_builder.rs:516). -/
def get_channel_proof (chain : Chain) (query_handler : QueryHandler)
    (mnemonic : Mnemonic) (port_id channel_id : String) : Except String Bytes :=
  match query_handler.channel port_id channel_id with
  | none =>
    Except.error ("channel with port id " ++ port_id ++ " and channel id "
      ++ channel_id ++ " not found")
  | some channel =>
    let channel_state_data : ChannelStateData :=
      { path := strBytes (channelPath port_id channel_id), channel := some channel }
    let channel_state_data_bytes := encodeChannelStateData channel_state_data
    let sign_bytes : SignBytes :=
      { sequence := chain.sequence
        timestamp := chain.consensus_timestamp
        diversifier := chain.diversifier
        data_type := DataType.channelState.toTag
        data := channel_state_data_bytes }
    Except.ok (sign chain mnemonic sign_bytes)

/-- `fn get_connection_proof` (transaction_builder.rs:554). -/
def get_connection_proof (chain : Chain) (query_handler : QueryHandler)
    (mnemonic : Mnemonic) (connection_id : String) : Except String Bytes :=
  match query_handler.connection connection_id with
  | none => Except.error ("connection with id " ++ connection_id ++ " not found")
  | some connection =>
    let connection_state_data : ConnectionStateData :=
      { path := strBytes (connectionPath connection_id), connection := some connection }
    let connection_state_data_bytes := encodeConnectionStateData connection_state_data
    let sign_bytes : SignBytes :=
      { sequence := chain.sequence
        timestamp := chain.consensus_timestamp
        diversifier := chain.diversifier
        data_type := DataType.connectionState.toTag
        data := connection_state_data_bytes }
    Except.ok (sign chain mnemonic sign_bytes)

/-- `fn get_client_proof` (transaction_builder.rs:585). -/
def get_client_proof (chain : Chain) (query_handler : QueryHandler)
    (mnemonic : Mnemonic) (client_id : String) : Except String Bytes :=
  match query_handler.client_state client_id with
  | none => Except.error ("client with id " ++ client_id ++ " not found")
  | some client_state =>
    let client_state_data : ClientStateData :=
      { path := strBytes (clientStatePath client_id)
        client_state := some client_state.toAny }
    let client_state_data_bytes := encodeClientStateData client_state_data
    let sign_bytes : SignBytes :=
      { sequence := chain.sequence
        timestamp := chain.consensus_timestamp
        diversifier := chain.diversifier
        data_type := DataType.clientState.toTag
        data := client_state_data_bytes }
    Except.ok (sign chain mnemonic sign_bytes)

/-- `fn get_consensus_proof` (transaction_builder.rs:617). -/
def get_consensus_proof (chain : Chain) (query_handler : QueryHandler)
    (mnemonic : Mnemonic) (client_id : String) : Except String Bytes :=
  match query_handler.client_state client_id with
  | none => Except.error ("client with id " ++ client_id ++ " not found")
  | some client_state =>
    match client_state.latest_height with
    | none => Except.error "client state does not contain latest height"
    | some height =>
      match query_handler.consensus_state client_id height with
      | none =>
        Except.error ("consensus state with id " ++ client_id ++ " not found")
      | some consensus_state =>
        let consensus_state_data : ConsensusStateData :=
          { path := strBytes (consensusStatePath client_id height)
            consensus_state := some consensus_state.toAny }
        let consensus_state_data_bytes := encodeConsensusStateData consensus_state_data
        let sign_bytes : SignBytes :=
          { sequence := chain.sequence
            timestamp := chain.consensus_timestamp
            diversifier := chain.diversifier
            data_type := DataType.consensusState.toTag
            data := consensus_state_data_bytes }
        Except.ok (sign chain mnemonic sign_bytes)

/-- `fn build_tx_body` (transaction_builder.rs:346); the payload messages
arrive already converted to `Any` (the `AnyConvert` trait bound). -/
def build_tx_body (b : TransactionBuilder) (messages : List Any) : TxBody :=
  { messages := messages
    memo := b.memo
    timeout_height := 0
    extension_options := []
    non_critical_extension_options := [] }

/-- `fn build_auth_info` (transaction_builder.rs:364). -/
def build_auth_info (b : TransactionBuilder) (chain : Chain)
    (account_sequence : Nat) : AuthInfo :=
  let signer_info : SignerInfo :=
    { public_key := some b.mnemonic.public_key_any
      mode_info := some { mode := 1 }
      sequence := account_sequence }
  let fee : Fee :=
    { amount := [{ denom := chain.fee.denom, amount := toString chain.fee.amount }]
      gas_limit := chain.fee.gas_limit
      payer := ""
      granter := "" }
  { signer_infos := [signer_info], fee := some fee }

/-- `fn build_signature` (transaction_builder.rs:389). -/
def build_signature (b : TransactionBuilder) (body_bytes auth_info_bytes : Bytes)
    (chain_id : String) (account_number : Nat) : Bytes :=
  let sign_doc : SignDoc :=
    { body_bytes := body_bytes
      auth_info_bytes := auth_info_bytes
      chain_id := chain_id
      account_number := account_number }
  let sign_doc_bytes := encodeSignDoc sign_doc
  ecdsaSign b.mnemonic.to_signing_key sign_doc_bytes

/-- `fn get_account_details` (transaction_builder.rs:408). -/
def get_account_details (b : TransactionBuilder) (auth : AuthClient)
    (chain : Chain) : Except String (Nat × Nat) :=
  let account_address := b.mnemonic.account_address chain.account_hrp
  match auth.account account_address with
  | none =>
    Except.error ("unable to find account with address: " ++ account_address)
  | some account => Except.ok (account.account_number, account.sequence)

/-- `fn build` (transaction_builder.rs:314). -/
def build (b : TransactionBuilder) (auth : AuthClient) (chain : Chain)
    (messages : List Any) : Except String TxRaw :=
  let tx_body_bytes := encodeTxBody (build_tx_body b messages)
  match get_account_details b auth chain with
  | Except.error e => Except.error e
  | Except.ok (account_number, account_sequence) =>
    let auth_info_bytes := encodeAuthInfo (build_auth_info b chain account_sequence)
    let signature := build_signature b tx_body_bytes auth_info_bytes chain.id account_number
    Except.ok
      { body_bytes := tx_body_bytes
        auth_info_bytes := auth_info_bytes
        signatures := [signature] }

/-- `fn get_unbonding_period` (transaction_builder.rs:432); `none` merges
gRPC failure, empty params and a missing unbonding time. -/
def get_unbonding_period (staking : Option Int) : Except String Int :=
  match staking with
  | none => Except.error "missing unbonding period in staking params"
  | some d => Except.ok d

/-- `fn get_latest_height` (transaction_builder.rs:450). -/
def get_latest_height (chain : Chain) (rpc_client : RpcClient) :
    Except String Height :=
  match rpc_client.status with
  | none => Except.error "rpc status query failed"
  | some response =>
    if response.catching_up then
      Except.error ("node at " ++ chain.rpc_addr ++ " running chain "
        ++ chain.id ++ " not caught up")
    else
      Except.ok
        { revision_number := chainIdVersion response.network
          revision_height := response.latest_block_height }

/-- `fn get_header` (transaction_builder.rs:478). -/
def get_header (rpc_client : RpcClient) (height : Height) :
    Except String Header :=
  match rpc_client.block_header height.revision_height with
  | none => Except.error "rpc block query failed"
  | some header => Except.ok header

/-- `fn msg_create_solo_machine_client` (transaction_builder.rs:100); the
chain service is returned unchanged because the source never mutates it
on this path. -/
def msg_create_solo_machine_client (b : TransactionBuilder) (svc : ChainService)
    (auth : AuthClient) : Except String TxRaw × ChainService :=
  match svc.get b.chain_id with
  | none => (Except.error ("chain with id " ++ b.chain_id ++ " not found"), svc)
  | some chain =>
    let any_public_key := b.mnemonic.public_key_any
    let consensus_state : SoloMachineConsensusState :=
      { public_key := some any_public_key
        diversifier := chain.diversifier
        timestamp := chain.consensus_timestamp }
    let any_consensus_state := consensus_state.toAny
    let client_state : SoloMachineClientState :=
      { sequence := chain.sequence
        frozen_sequence := 0
        consensus_state := some consensus_state
        allow_update_after_proposal := true }
    let any_client_state := client_state.toAny
    let message : MsgCreateClient :=
      { client_state := some any_client_state
        consensus_state := some any_consensus_state
        signer := b.mnemonic.account_address chain.account_hrp }
    (build b auth chain [message.toAny], svc)

/-- `fn msg_create_tendermint_client` (transaction_builder.rs:133); returns
the chain service unchanged because the source never mutates it. -/
def msg_create_tendermint_client (b : TransactionBuilder) (svc : ChainService)
    (staking : Option Int) (rpc_client : RpcClient) :
    Except String (TendermintClientState × TendermintConsensusState) × ChainService :=
  match svc.get b.chain_id with
  | none => (Except.error ("chain with id " ++ b.chain_id ++ " not found"), svc)
  | some chain =>
    let trust_level : Option Fraction :=
      some { numerator := chain.trust_level.numer, denominator := chain.trust_level.denom }
    match get_unbonding_period staking with
    | Except.error e => (Except.error e, svc)
    | Except.ok unbonding_period =>
      match get_latest_height chain rpc_client with
      | Except.error e => (Except.error e, svc)
      | Except.ok latest_height =>
        let client_state : TendermintClientState :=
          { chain_id := chain.id
            trust_level := trust_level
            trusting_period := some chain.trusting_period
            unbonding_period := some unbonding_period
            max_clock_drift := some chain.max_clock_drift
            frozen_height := some Height.zero
            latest_height := some latest_height
            proof_specs := canonicalProofSpecs
            upgrade_path := ["upgrade", "upgradedIBCState"]
            allow_update_after_expiry := false
            allow_update_after_misbehaviour := false }
        match get_header rpc_client latest_height with
        | Except.error e => (Except.error e, svc)
        | Except.ok header =>
          let consensus_state := TendermintConsensusState.from_block_header header
          (Except.ok (client_state, consensus_state), svc)

/-- `fn msg_connection_open_init` (transaction_builder.rs:173). -/
def msg_connection_open_init (b : TransactionBuilder) (svc : ChainService)
    (auth : AuthClient) (solo_machine_client_id tendermint_client_id : String) :
    Except String TxRaw × ChainService :=
  match svc.get b.chain_id with
  | none => (Except.error ("chain with id " ++ b.chain_id ++ " not found"), svc)
  | some chain =>
    let message : MsgConnectionOpenInit :=
      { client_id := solo_machine_client_id
        counterparty := some
          { client_id := tendermint_client_id
            connection_id := ""
            pfx := some { key_pfx := strBytes "ibc" } }
        version := some
          { identifier := "1"
            features := ["ORDER_ORDERED", "ORDER_UNORDERED"] }
        delay_period := 0
        signer := b.mnemonic.account_address chain.account_hrp }
    (build b auth chain [message.toAny], svc)

/-- `fn msg_connection_open_ack` (transaction_builder.rs:203). -/
def msg_connection_open_ack (b : TransactionBuilder) (svc : ChainService)
    (auth : AuthClient) (query_handler : QueryHandler)
    (solo_machine_connection_id tendermint_client_id tendermint_connection_id : String) :
    Except String TxRaw × ChainService :=
  match svc.get b.chain_id with
  | none => (Except.error ("chain with id " ++ b.chain_id ++ " not found"), svc)
  | some chain =>
    match query_handler.client_state tendermint_client_id with
    | none =>
      (Except.error ("client for client id " ++ tendermint_client_id ++ " not found"), svc)
    | some tendermint_client_state =>
      match get_connection_proof chain query_handler b.mnemonic tendermint_connection_id with
      | Except.error e => (Except.error e, svc)
      | Except.ok proof_try =>
        match svc.increment_sequence b.chain_id with
        | Except.error e => (Except.error e, svc)
        | Except.ok (chain1, svc1) =>
          match get_client_proof chain1 query_handler b.mnemonic tendermint_client_id with
          | Except.error e => (Except.error e, svc1)
          | Except.ok proof_client =>
            match svc1.increment_sequence b.chain_id with
            | Except.error e => (Except.error e, svc1)
            | Except.ok (chain2, svc2) =>
              match get_consensus_proof chain2 query_handler b.mnemonic tendermint_client_id with
              | Except.error e => (Except.error e, svc2)
              | Except.ok proof_consensus =>
                match svc2.increment_sequence b.chain_id with
                | Except.error e => (Except.error e, svc2)
                | Except.ok (chain3, svc3) =>
                  let message : MsgConnectionOpenAck :=
                    { connection_id := solo_machine_connection_id
                      counterparty_connection_id := tendermint_connection_id
                      version := some
                        { identifier := "1"
                          features := ["ORDER_ORDERED", "ORDER_UNORDERED"] }
                      client_state := some tendermint_client_state.toAny
                      proof_height := some (Height.new 0 chain3.sequence)
                      proof_try := proof_try
                      proof_client := proof_client
                      proof_consensus := proof_consensus
                      consensus_height := tendermint_client_state.latest_height
                      signer := b.mnemonic.account_address chain3.account_hrp }
                  (build b auth chain3 [message.toAny], svc3)

/-- `fn msg_channel_open_init` (transaction_builder.rs:254). -/
def msg_channel_open_init (b : TransactionBuilder) (svc : ChainService)
    (auth : AuthClient) (solo_machine_connection_id : String) :
    Except String TxRaw × ChainService :=
  match svc.get b.chain_id with
  | none => (Except.error ("chain with id " ++ b.chain_id ++ " not found"), svc)
  | some chain =>
    let message : MsgChannelOpenInit :=
      { port_id := chain.port_id
        channel := some
          { state := channelStateInit
            ordering := channelOrderUnordered
            counterparty := some { port_id := chain.port_id, channel_id := "" }
            connection_hops := [solo_machine_connection_id]
            version := "ics20-1" }
        signer := b.mnemonic.account_address chain.account_hrp }
    (build b auth chain [message.toAny], svc)

/-- `fn msg_channel_open_ack` (transaction_builder.rs:281). -/
def msg_channel_open_ack (b : TransactionBuilder) (svc : ChainService)
    (auth : AuthClient) (query_handler : QueryHandler)
    (solo_machine_channel_id tendermint_channel_id : String) :
    Except String TxRaw × ChainService :=
  match svc.get b.chain_id with
  | none => (Except.error ("chain with id " ++ b.chain_id ++ " not found"), svc)
  | some chain =>
    match get_channel_proof chain query_handler b.mnemonic chain.port_id
        tendermint_channel_id with
    | Except.error e => (Except.error e, svc)
    | Except.ok proof_try =>
      match svc.increment_sequence b.chain_id with
      | Except.error e => (Except.error e, svc)
      | Except.ok (chain1, svc1) =>
        let message : MsgChannelOpenAck :=
          { port_id := chain1.port_id
            channel_id := solo_machine_channel_id
            counterparty_channel_id := tendermint_channel_id
            counterparty_version := "ics20-1"
            proof_height := some (Height.new 0 chain1.sequence)
            proof_try := proof_try
            signer := b.mnemonic.account_address chain1.account_hrp }
        (build b auth chain1 [message.toAny], svc1)

/-- Concrete scenario used by the witnesses: a fixed mnemonic. -/
def wMnemonic : Mnemonic := ⟨7⟩

/-- Concrete scenario: a chain registered as `test-1` at sequence 10. -/
def wChain : Chain :=
  { id := "test-1", grpc_addr := "g", rpc_addr := "r", account_hrp := "cosmos"
    fee := { denom := "stake", amount := 1000, gas_limit := 300000 }
    trust_level := ⟨1, 3⟩, trusting_period := 14, unbonding_period := 21
    max_clock_drift := 3, port_id := "transfer", diversifier := "solo"
    consensus_timestamp := 1000, sequence := 10 }

/-- Concrete scenario: a chain service holding only `test-1`. -/
def wSvc : ChainService := ⟨fun i => if i = "test-1" then some wChain else none⟩

/-- Concrete scenario: the builder for chain `test-1` with empty memo. -/
def wB : TransactionBuilder := { chain_id := "test-1", mnemonic := wMnemonic, memo := "" }

/-- Concrete scenario: an auth client that knows every address. -/
def wAuth : AuthClient := ⟨fun _ => some { account_number := 5, sequence := 2 }⟩

/-- Concrete scenario: a stored counterparty Tendermint client state. -/
def wTmClientState : TendermintClientState :=
  { chain_id := "tm-1", trust_level := some ⟨1, 3⟩, trusting_period := some 14
    unbonding_period := some 21, max_clock_drift := some 3
    frozen_height := some Height.zero, latest_height := some ⟨1, 100⟩
    proof_specs := canonicalProofSpecs
    upgrade_path := ["upgrade", "upgradedIBCState"]
    allow_update_after_expiry := false, allow_update_after_misbehaviour := false }

/-- Concrete scenario: a stored counterparty channel end. -/
def wChannel : Channel :=
  { state := 2, ordering := 1, counterparty := some ⟨"transfer", "channel-1"⟩
    connection_hops := ["connection-1"], version := "ics20-1" }

/-- Concrete scenario: a query handler holding one client, consensus state, connection and channel. -/
def wQh : QueryHandler :=
  { client_state := fun i => if i = "07-tendermint-0" then some wTmClientState else none
    consensus_state := fun i h =>
      if i = "07-tendermint-0" then (if h = ⟨1, 100⟩ then some ⟨[9]⟩ else none) else none
    connection := fun i => if i = "connection-0" then some ⟨[8]⟩ else none
    channel := fun p c =>
      if p = "transfer" then (if c = "channel-0" then some wChannel else none) else none }

def wConnAck :=
  msg_connection_open_ack wB wSvc wAuth wQh "conn-sm" "07-tendermint-0" "connection-0"

def wConnAckTx : TxRaw := wConnAck.1.toOption.getD ⟨[], [], []⟩

def wCreate := msg_create_solo_machine_client wB wSvc wAuth

def wCreateTx : TxRaw := wCreate.1.toOption.getD ⟨[], [], []⟩

def wConnInit := msg_connection_open_init wB wSvc wAuth "06-solomachine-0" "07-tendermint-0"

def wConnInitTx : TxRaw := wConnInit.1.toOption.getD ⟨[], [], []⟩

def wChanInit := msg_channel_open_init wB wSvc wAuth "connection-0"

def wChanInitTx : TxRaw := wChanInit.1.toOption.getD ⟨[], [], []⟩

def wChanAck := msg_channel_open_ack wB wSvc wAuth wQh "channel-sm" "channel-0"

def wChanAckTx : TxRaw := wChanAck.1.toOption.getD ⟨[], [], []⟩

def wP1 : Bytes := (get_client_proof wChain wQh wMnemonic "07-tendermint-0").toOption.getD []

def wP2 : Bytes := (get_consensus_proof wChain wQh wMnemonic "07-tendermint-0").toOption.getD []

def wP3 : Bytes := (get_connection_proof wChain wQh wMnemonic "connection-0").toOption.getD []

def wP4 : Bytes := (get_channel_proof wChain wQh wMnemonic "transfer" "channel-0").toOption.getD []

def wBuildTx : TxRaw := (build wB wAuth wChain []).toOption.getD ⟨[], [], []⟩

def wQhNoCons : QueryHandler := { wQh with consensus_state := fun _ _ => none }

def wConnAckE :=
  msg_connection_open_ack wB wSvc wAuth wQhNoCons "conn-sm" "07-tendermint-0" "connection-0"

def wConnAckErr : String :=
  match wConnAckE.1 with
  | Except.error e => e
  | Except.ok _ => ""

def wStatusCatching : StatusResponse :=
  { catching_up := true, network := "test-1", latest_block_height := 50 }

def wRpcCatching : RpcClient :=
  { status := some wStatusCatching, block_header := fun _ => some ⟨[7]⟩ }

/-- Concrete scenario: an auth client that knows no account, so every
`build` fails at the account lookup. -/
def wAuthNone : AuthClient := ⟨fun _ => none⟩

/-- Concrete scenario: `msg_channel_open_ack` run against the failing auth
client; the proof and the increment succeed, the build step fails. -/
def wChanAckE := msg_channel_open_ack wB wSvc wAuthNone wQh "channel-sm" "channel-0"

/-- The error message of `wChanAckE`. -/
def wChanAckErr : String :=
  match wChanAckE.1 with
  | Except.error e => e
  | Except.ok _ => ""

/-- Evaluating `increment_sequence` on a stored chain returns the post-increment snapshot and the updated store. -/
lemma increment_of_get {svc : ChainService} {id : String} {chain : Chain}
    (h : svc.chains id = some chain) :
    svc.increment_sequence id = Except.ok
      ({ chain with sequence := chain.sequence + 1 },
       ⟨fun i => if i = id then some { chain with sequence := chain.sequence + 1 }
                 else svc.chains i⟩) := by
  unfold ChainService.increment_sequence
  rw [h]

/-- Reading the chain back from an updated store yields the stored chain. -/
lemma chains_update_get (f : String → Option Chain) (id : String) (c : Chain) :
    (ChainService.mk fun i => if i = id then some c else f i).chains id = some c := by
  simp

/-- A successful connection proof is a solo-machine signature over a `SignBytes` carrying the current sequence, the consensus timestamp, the diversifier and the connection-state tag. -/
lemma get_connection_proof_ok {chain : Chain} {qh : QueryHandler} {m : Mnemonic}
    {cid : String} {p : Bytes} (h : get_connection_proof chain qh m cid = Except.ok p) :
    ∃ d, p = sign chain m
      { sequence := chain.sequence, timestamp := chain.consensus_timestamp,
        diversifier := chain.diversifier,
        data_type := DataType.connectionState.toTag, data := d } := by
  unfold get_connection_proof at h
  split at h
  · exact absurd h (by simp)
  · exact ⟨_, (Except.ok.injEq _ _ ▸ h.symm)⟩

/-- A successful client proof signs a `SignBytes` with the current sequence and the client-state tag. -/
lemma get_client_proof_ok {chain : Chain} {qh : QueryHandler} {m : Mnemonic}
    {cid : String} {p : Bytes} (h : get_client_proof chain qh m cid = Except.ok p) :
    ∃ d, p = sign chain m
      { sequence := chain.sequence, timestamp := chain.consensus_timestamp,
        diversifier := chain.diversifier,
        data_type := DataType.clientState.toTag, data := d } := by
  unfold get_client_proof at h
  split at h
  · exact absurd h (by simp)
  · exact ⟨_, (Except.ok.injEq _ _ ▸ h.symm)⟩

/-- A successful consensus proof signs a `SignBytes` with the current sequence and the consensus-state tag. -/
lemma get_consensus_proof_ok {chain : Chain} {qh : QueryHandler} {m : Mnemonic}
    {cid : String} {p : Bytes} (h : get_consensus_proof chain qh m cid = Except.ok p) :
    ∃ d, p = sign chain m
      { sequence := chain.sequence, timestamp := chain.consensus_timestamp,
        diversifier := chain.diversifier,
        data_type := DataType.consensusState.toTag, data := d } := by
  unfold get_consensus_proof at h
  split at h
  · exact absurd h (by simp)
  · split at h
    · exact absurd h (by simp)
    · split at h
      · exact absurd h (by simp)
      · exact ⟨_, (Except.ok.injEq _ _ ▸ h.symm)⟩

/-- A successful channel proof signs a `SignBytes` with the current sequence and the channel-state tag. -/
lemma get_channel_proof_ok {chain : Chain} {qh : QueryHandler} {m : Mnemonic}
    {pid cid : String} {p : Bytes}
    (h : get_channel_proof chain qh m pid cid = Except.ok p) :
    ∃ d, p = sign chain m
      { sequence := chain.sequence, timestamp := chain.consensus_timestamp,
        diversifier := chain.diversifier,
        data_type := DataType.channelState.toTag, data := d } := by
  unfold get_channel_proof at h
  split at h
  · exact absurd h (by simp)
  · exact ⟨_, (Except.ok.injEq _ _ ▸ h.symm)⟩

/-- A successful `build` stores in the `TxRaw` exactly the body and auth-info bytes it encoded, and a single signature over them. -/
lemma build_ok {b : TransactionBuilder} {auth : AuthClient} {chain : Chain}
    {msgs : List Any} {tx : TxRaw} (h : build b auth chain msgs = Except.ok tx) :
    ∃ account_number account_sequence,
      get_account_details b auth chain = Except.ok (account_number, account_sequence) ∧
      tx.body_bytes = encodeTxBody (build_tx_body b msgs) ∧
      tx.auth_info_bytes = encodeAuthInfo (build_auth_info b chain account_sequence) ∧
      tx.signatures = [build_signature b tx.body_bytes tx.auth_info_bytes
        chain.id account_number] := by
  unfold build at h
  split at h
  · exact absurd h (by simp)
  · rename_i an asq heq
    cases h
    exact ⟨an, asq, heq, rfl, rfl, rfl⟩

/-- A connection proof fails exactly when the connection is not stored. -/
lemma get_connection_proof_err {chain : Chain} {qh : QueryHandler} {m : Mnemonic}
    {cid : String} {e : String} (h : get_connection_proof chain qh m cid = Except.error e) :
    qh.connection cid = none := by
  unfold get_connection_proof at h
  split at h
  · assumption
  · exact absurd h (by simp)

/-- A channel proof fails exactly when the channel is not stored. -/
lemma get_channel_proof_err {chain : Chain} {qh : QueryHandler} {m : Mnemonic}
    {pid cid : String} {e : String}
    (h : get_channel_proof chain qh m pid cid = Except.error e) :
    qh.channel pid cid = none := by
  unfold get_channel_proof at h
  split at h
  · assumption
  · exact absurd h (by simp)

/-- A consensus proof fails exactly when the client is missing, its latest
height is missing, or the consensus state at that height is missing. -/
lemma get_consensus_proof_err {chain : Chain} {qh : QueryHandler} {m : Mnemonic}
    {cid : String} {e : String}
    (h : get_consensus_proof chain qh m cid = Except.error e) :
    qh.client_state cid = none ∨
    ∃ tcs, qh.client_state cid = some tcs ∧
      (tcs.latest_height = none ∨
        ∃ ht, tcs.latest_height = some ht ∧ qh.consensus_state cid ht = none) := by
  unfold get_consensus_proof at h
  split at h
  · exact Or.inl (by assumption)
  · rename_i tcs htcs
    split at h
    · exact Or.inr ⟨tcs, htcs, Or.inl (by assumption)⟩
    · rename_i ht hlh
      split at h
      · exact Or.inr ⟨tcs, htcs, Or.inr ⟨ht, hlh, by assumption⟩⟩
      · exact absurd h (by simp)

/-- A `build` fails exactly when the account lookup at the signer address
fails. -/
lemma build_err {b : TransactionBuilder} {auth : AuthClient} {chain : Chain}
    {msgs : List Any} {e : String} (h : build b auth chain msgs = Except.error e) :
    auth.account (b.mnemonic.account_address chain.account_hrp) = none := by
  unfold build at h
  split at h
  · rename_i heq
    unfold get_account_details at heq
    dsimp only at heq
    split at heq
    · assumption
    · exact absurd heq (by simp)
  · exact absurd h (by simp)

/-- Claim C1: every successful `msg_connection_open_ack` from a snapshot at
sequence `s` generates the connection proof, the client proof and the
consensus proof in that order, an `increment_sequence` after each, so their
embedded `SignBytes.sequence` values are `s`, `s + 1`, `s + 2`, and the outer
message carries `proof_height = (0, s + 3)`. -/
theorem connection_open_ack_three_proofs
    (b : TransactionBuilder) (svc svc2 : ChainService) (auth : AuthClient)
    (qh : QueryHandler) (sc tc tn : String) (chain : Chain) (tx : TxRaw)
    (hc : svc.chains b.chain_id = some chain)
    (h : msg_connection_open_ack b svc auth qh sc tc tn = (Except.ok tx, svc2)) :
    ∃ (msg : MsgConnectionOpenAck) (d1 d2 d3 : Bytes),
      tx.body_bytes = encodeTxBody (build_tx_body b [msg.toAny]) ∧
      msg.proof_try = sign chain b.mnemonic
        { sequence := chain.sequence, timestamp := chain.consensus_timestamp,
          diversifier := chain.diversifier,
          data_type := DataType.connectionState.toTag, data := d1 } ∧
      msg.proof_client = sign chain b.mnemonic
        { sequence := chain.sequence + 1, timestamp := chain.consensus_timestamp,
          diversifier := chain.diversifier,
          data_type := DataType.clientState.toTag, data := d2 } ∧
      msg.proof_consensus = sign chain b.mnemonic
        { sequence := chain.sequence + 2, timestamp := chain.consensus_timestamp,
          diversifier := chain.diversifier,
          data_type := DataType.consensusState.toTag, data := d3 } ∧
      msg.proof_height = some
        { revision_number := 0, revision_height := chain.sequence + 3 } := by
  unfold msg_connection_open_ack at h
  split at h
  · rename_i hg
    simp only [ChainService.get, hc] at hg
    exact Option.noConfusion hg
  · rename_i c hgc
    simp only [ChainService.get, hc, Option.some.injEq] at hgc
    subst hgc
    split at h
    · exact absurd h (by simp)
    · rename_i tcs htcs
      split at h
      · exact absurd h (by simp)
      · rename_i pt hpt
        split at h
        · rename_i e hinc
          rw [increment_of_get hc] at hinc
          exact absurd hinc (by simp)
        · rename_i chain1 svc1 hinc
          rw [increment_of_get hc] at hinc
          injection hinc with hinc
          injection hinc with hc1 hs1
          subst hc1; subst hs1
          split at h
          · exact absurd h (by simp)
          · rename_i pc hpc
            split at h
            · rename_i e hinc2
              rw [increment_of_get (chains_update_get _ _ _)] at hinc2
              exact absurd hinc2 (by simp)
            · rename_i chain2 svc2x hinc2
              rw [increment_of_get (chains_update_get _ _ _)] at hinc2
              injection hinc2 with hinc2
              injection hinc2 with hc2 hs2
              subst hc2; subst hs2
              split at h
              · exact absurd h (by simp)
              · rename_i pcs hpcs
                split at h
                · rename_i e hinc3
                  rw [increment_of_get (chains_update_get _ _ _)] at hinc3
                  exact absurd hinc3 (by simp)
                · rename_i chain3 svc3 hinc3
                  rw [increment_of_get (chains_update_get _ _ _)] at hinc3
                  injection hinc3 with hinc3
                  injection hinc3 with hc3 hs3
                  subst hc3; subst hs3
                  have h1 := congrArg Prod.fst h
                  dsimp only at h1
                  obtain ⟨an, asq, hacc, hbody, hauth2, hsig⟩ := build_ok h1
                  obtain ⟨d1, hd1⟩ := get_connection_proof_ok hpt
                  obtain ⟨d2, hd2⟩ := get_client_proof_ok hpc
                  obtain ⟨d3, hd3⟩ := get_consensus_proof_ok hpcs
                  exact ⟨_, d1, d2, d3, hbody, hd1, hd2, hd3, rfl⟩

/-- Witness for claim C1 on the concrete scenario (sequence 10, proofs at 10, 11, 12, proof height 13). -/
theorem connection_open_ack_three_proofs_witness :
    wSvc.chains wB.chain_id = some wChain ∧
    msg_connection_open_ack wB wSvc wAuth wQh "conn-sm" "07-tendermint-0" "connection-0"
      = (Except.ok wConnAckTx, wConnAck.2) ∧
    (∃ (msg : MsgConnectionOpenAck) (d1 d2 d3 : Bytes),
      wConnAckTx.body_bytes = encodeTxBody (build_tx_body wB [msg.toAny]) ∧
      msg.proof_try = sign wChain wB.mnemonic
        { sequence := wChain.sequence, timestamp := wChain.consensus_timestamp,
          diversifier := wChain.diversifier,
          data_type := DataType.connectionState.toTag, data := d1 } ∧
      msg.proof_client = sign wChain wB.mnemonic
        { sequence := wChain.sequence + 1, timestamp := wChain.consensus_timestamp,
          diversifier := wChain.diversifier,
          data_type := DataType.clientState.toTag, data := d2 } ∧
      msg.proof_consensus = sign wChain wB.mnemonic
        { sequence := wChain.sequence + 2, timestamp := wChain.consensus_timestamp,
          diversifier := wChain.diversifier,
          data_type := DataType.consensusState.toTag, data := d3 } ∧
      msg.proof_height = some
        { revision_number := 0, revision_height := wChain.sequence + 3 }) :=
  ⟨rfl, rfl,
   connection_open_ack_three_proofs wB wSvc wConnAck.2 wAuth wQh
     "conn-sm" "07-tendermint-0" "connection-0" wChain wConnAckTx rfl rfl⟩

/-- Claim C2: every proof produced by the four proof factories signs a
`SignBytes` with the snapshot sequence, the consensus timestamp, the
diversifier and the data type tag of the factory; the raw signature is
wrapped in a `Single` `SignatureData` with mode `SIGN_MODE_UNSPECIFIED` (0),
whose encoding is wrapped with the timestamp in a
`TimestampedSignatureData`, whose encoding is the returned proof. -/
theorem proof_factories_envelope
    (chain : Chain) (qh : QueryHandler) (m : Mnemonic)
    (cid conn_id pid chid : String) (p1 p2 p3 p4 : Bytes) :
    (get_client_proof chain qh m cid = Except.ok p1 →
      ∃ d, p1 = encodeTimestampedSignatureData
        { signature_data := encodeSignatureData
            { signature := ecdsaSign m.to_signing_key (encodeSignBytes
                { sequence := chain.sequence, timestamp := chain.consensus_timestamp,
                  diversifier := chain.diversifier,
                  data_type := DataType.clientState.toTag, data := d })
              mode := 0 }
          timestamp := chain.consensus_timestamp }) ∧
    (get_consensus_proof chain qh m cid = Except.ok p2 →
      ∃ d, p2 = encodeTimestampedSignatureData
        { signature_data := encodeSignatureData
            { signature := ecdsaSign m.to_signing_key (encodeSignBytes
                { sequence := chain.sequence, timestamp := chain.consensus_timestamp,
                  diversifier := chain.diversifier,
                  data_type := DataType.consensusState.toTag, data := d })
              mode := 0 }
          timestamp := chain.consensus_timestamp }) ∧
    (get_connection_proof chain qh m conn_id = Except.ok p3 →
      ∃ d, p3 = encodeTimestampedSignatureData
        { signature_data := encodeSignatureData
            { signature := ecdsaSign m.to_signing_key (encodeSignBytes
                { sequence := chain.sequence, timestamp := chain.consensus_timestamp,
                  diversifier := chain.diversifier,
                  data_type := DataType.connectionState.toTag, data := d })
              mode := 0 }
          timestamp := chain.consensus_timestamp }) ∧
    (get_channel_proof chain qh m pid chid = Except.ok p4 →
      ∃ d, p4 = encodeTimestampedSignatureData
        { signature_data := encodeSignatureData
            { signature := ecdsaSign m.to_signing_key (encodeSignBytes
                { sequence := chain.sequence, timestamp := chain.consensus_timestamp,
                  diversifier := chain.diversifier,
                  data_type := DataType.channelState.toTag, data := d })
              mode := 0 }
          timestamp := chain.consensus_timestamp }) := by
  refine ⟨fun h => ?_, fun h => ?_, fun h => ?_, fun h => ?_⟩
  · obtain ⟨d, hd⟩ := get_client_proof_ok h
    exact ⟨d, hd⟩
  · obtain ⟨d, hd⟩ := get_consensus_proof_ok h
    exact ⟨d, hd⟩
  · obtain ⟨d, hd⟩ := get_connection_proof_ok h
    exact ⟨d, hd⟩
  · obtain ⟨d, hd⟩ := get_channel_proof_ok h
    exact ⟨d, hd⟩

/-- Witness for claim C2: all four factories evaluated on the concrete scenario. -/
theorem proof_factories_envelope_witness :
    get_client_proof wChain wQh wMnemonic "07-tendermint-0" = Except.ok wP1 ∧
    get_consensus_proof wChain wQh wMnemonic "07-tendermint-0" = Except.ok wP2 ∧
    get_connection_proof wChain wQh wMnemonic "connection-0" = Except.ok wP3 ∧
    get_channel_proof wChain wQh wMnemonic "transfer" "channel-0" = Except.ok wP4 ∧
    (∃ d, wP1 = encodeTimestampedSignatureData
      { signature_data := encodeSignatureData
          { signature := ecdsaSign wMnemonic.to_signing_key (encodeSignBytes
              { sequence := wChain.sequence, timestamp := wChain.consensus_timestamp,
                diversifier := wChain.diversifier,
                data_type := DataType.clientState.toTag, data := d })
            mode := 0 }
        timestamp := wChain.consensus_timestamp }) ∧
    (∃ d, wP2 = encodeTimestampedSignatureData
      { signature_data := encodeSignatureData
          { signature := ecdsaSign wMnemonic.to_signing_key (encodeSignBytes
              { sequence := wChain.sequence, timestamp := wChain.consensus_timestamp,
                diversifier := wChain.diversifier,
                data_type := DataType.consensusState.toTag, data := d })
            mode := 0 }
        timestamp := wChain.consensus_timestamp }) ∧
    (∃ d, wP3 = encodeTimestampedSignatureData
      { signature_data := encodeSignatureData
          { signature := ecdsaSign wMnemonic.to_signing_key (encodeSignBytes
              { sequence := wChain.sequence, timestamp := wChain.consensus_timestamp,
                diversifier := wChain.diversifier,
                data_type := DataType.connectionState.toTag, data := d })
            mode := 0 }
        timestamp := wChain.consensus_timestamp }) ∧
    (∃ d, wP4 = encodeTimestampedSignatureData
      { signature_data := encodeSignatureData
          { signature := ecdsaSign wMnemonic.to_signing_key (encodeSignBytes
              { sequence := wChain.sequence, timestamp := wChain.consensus_timestamp,
                diversifier := wChain.diversifier,
                data_type := DataType.channelState.toTag, data := d })
            mode := 0 }
        timestamp := wChain.consensus_timestamp }) :=
  ⟨rfl, rfl, rfl, rfl,
   (proof_factories_envelope wChain wQh wMnemonic "07-tendermint-0" "connection-0"
     "transfer" "channel-0" wP1 wP2 wP3 wP4).1 rfl,
   (proof_factories_envelope wChain wQh wMnemonic "07-tendermint-0" "connection-0"
     "transfer" "channel-0" wP1 wP2 wP3 wP4).2.1 rfl,
   (proof_factories_envelope wChain wQh wMnemonic "07-tendermint-0" "connection-0"
     "transfer" "channel-0" wP1 wP2 wP3 wP4).2.2.1 rfl,
   (proof_factories_envelope wChain wQh wMnemonic "07-tendermint-0" "connection-0"
     "transfer" "channel-0" wP1 wP2 wP3 wP4).2.2.2 rfl⟩

/-- Claim C3: a successful `build` returns a `TxRaw` whose `body_bytes` and
`auth_info_bytes` are exactly the bytes placed in the signed `SignDoc`
(with `chain_id = chain.id` and the queried account number), and whose
`signatures` is exactly the one-element list with that signature. -/
theorem build_signdoc_exact_bytes
    (b : TransactionBuilder) (auth : AuthClient) (chain : Chain)
    (msgs : List Any) (tx : TxRaw) (h : build b auth chain msgs = Except.ok tx) :
    ∃ account_number,
      tx.signatures = [ecdsaSign b.mnemonic.to_signing_key (encodeSignDoc
        { body_bytes := tx.body_bytes, auth_info_bytes := tx.auth_info_bytes,
          chain_id := chain.id, account_number := account_number })] := by
  obtain ⟨an, asq, hacc, hbody, hauth, hsig⟩ := build_ok h
  exact ⟨an, hsig⟩

/-- Witness for claim C3 on the concrete scenario. -/
theorem build_signdoc_exact_bytes_witness :
    build wB wAuth wChain [] = Except.ok wBuildTx ∧
    (∃ account_number, wBuildTx.signatures = [ecdsaSign wB.mnemonic.to_signing_key
      (encodeSignDoc
        { body_bytes := wBuildTx.body_bytes
          auth_info_bytes := wBuildTx.auth_info_bytes
          chain_id := wChain.id
          account_number := account_number })]) :=
  ⟨rfl, build_signdoc_exact_bytes wB wAuth wChain [] wBuildTx rfl⟩

/-- Claim C4: every successful `msg_channel_open_ack` from a snapshot at
sequence `s` generates exactly one proof, signing a `SignBytes` with
sequence `s` and the channel-state tag, performs exactly one
`increment_sequence`, and the outer message carries
`proof_height = (0, s + 1)` and `counterparty_version = "ics20-1"`. -/
theorem channel_open_ack_one_proof
    (b : TransactionBuilder) (svc svc2 : ChainService) (auth : AuthClient)
    (qh : QueryHandler) (smc tmc : String) (chain : Chain) (tx : TxRaw)
    (hc : svc.chains b.chain_id = some chain)
    (h : msg_channel_open_ack b svc auth qh smc tmc = (Except.ok tx, svc2)) :
    ∃ (msg : MsgChannelOpenAck) (d : Bytes),
      tx.body_bytes = encodeTxBody (build_tx_body b [msg.toAny]) ∧
      msg.proof_try = sign chain b.mnemonic
        { sequence := chain.sequence, timestamp := chain.consensus_timestamp,
          diversifier := chain.diversifier,
          data_type := DataType.channelState.toTag, data := d } ∧
      msg.proof_height = some
        { revision_number := 0, revision_height := chain.sequence + 1 } ∧
      msg.counterparty_version = "ics20-1" ∧
      (∃ c2, svc2.chains b.chain_id = some c2 ∧ c2.sequence = chain.sequence + 1) := by
  unfold msg_channel_open_ack at h
  split at h
  · rename_i hg
    simp only [ChainService.get, hc] at hg
    exact Option.noConfusion hg
  · rename_i c hgc
    simp only [ChainService.get, hc, Option.some.injEq] at hgc
    subst hgc
    split at h
    · exact absurd h (by simp)
    · rename_i pt hpt
      split at h
      · rename_i e hinc
        rw [increment_of_get hc] at hinc
        exact absurd hinc (by simp)
      · rename_i chain1 svc1 hinc
        rw [increment_of_get hc] at hinc
        injection hinc with hinc
        injection hinc with hc1 hs1
        subst hc1; subst hs1
        have h1 := congrArg Prod.fst h
        have h2 := congrArg Prod.snd h
        dsimp only at h1 h2
        obtain ⟨an, asq, hacc, hbody, hauth, hsig⟩ := build_ok h1
        obtain ⟨d, hd⟩ := get_channel_proof_ok hpt
        refine ⟨_, d, hbody, hd, rfl, rfl, ?_⟩
        rw [← h2]
        exact ⟨_, chains_update_get _ _ _, rfl⟩

/-- Witness for claim C4 on the concrete scenario (sequence 10, proof height 11). -/
theorem channel_open_ack_one_proof_witness :
    wSvc.chains wB.chain_id = some wChain ∧
    msg_channel_open_ack wB wSvc wAuth wQh "channel-sm" "channel-0"
      = (Except.ok wChanAckTx, wChanAck.2) ∧
    (∃ (msg : MsgChannelOpenAck) (d : Bytes),
      wChanAckTx.body_bytes = encodeTxBody (build_tx_body wB [msg.toAny]) ∧
      msg.proof_try = sign wChain wB.mnemonic
        { sequence := wChain.sequence, timestamp := wChain.consensus_timestamp,
          diversifier := wChain.diversifier,
          data_type := DataType.channelState.toTag, data := d } ∧
      msg.proof_height = some
        { revision_number := 0, revision_height := wChain.sequence + 1 } ∧
      msg.counterparty_version = "ics20-1" ∧
      (∃ c2, (wChanAck.2).chains wB.chain_id = some c2 ∧
        c2.sequence = wChain.sequence + 1)) :=
  ⟨rfl, rfl,
   channel_open_ack_one_proof wB wSvc wChanAck.2 wAuth wQh "channel-sm" "channel-0"
     wChain wChanAckTx rfl rfl⟩

/-- Claim C5: a failing factory call returns an error and no `TxRaw`, and
the sequence increments performed before the failing step are not rolled
back.  For `msg_connection_open_ack` the final stored sequence is exactly
the initial one when the call fails before the first proof, exactly
initial + 2 when the third (consensus) proof fails, and exactly initial + 3
when the build step (account lookup) fails after all three increments; for
`msg_channel_open_ack` it is exactly the initial one when the channel proof
fails and exactly initial + 1 when the build step fails after the one
increment.  (A failure in the second proof of `msg_connection_open_ack` is
unrealizable here: it repeats the client lookup that already succeeded.) -/
theorem factories_error_no_rollback
    (b : TransactionBuilder) (svc svc2 svc3 : ChainService) (auth : AuthClient)
    (qh : QueryHandler) (sc tc tn smc tmc : String) (chain : Chain) (e1 e2 : String)
    (hc : svc.chains b.chain_id = some chain) :
    (msg_connection_open_ack b svc auth qh sc tc tn = (Except.error e1, svc2) →
      (svc2 = svc ∧ (qh.client_state tc = none ∨ qh.connection tn = none)) ∨
      ((∃ c2, svc2.chains b.chain_id = some c2 ∧ c2.sequence = chain.sequence + 2) ∧
        (∃ tcs, qh.client_state tc = some tcs ∧
          (tcs.latest_height = none ∨
            ∃ ht, tcs.latest_height = some ht ∧ qh.consensus_state tc ht = none))) ∨
      ((∃ c2, svc2.chains b.chain_id = some c2 ∧ c2.sequence = chain.sequence + 3) ∧
        auth.account (b.mnemonic.account_address chain.account_hrp) = none)) ∧
    (msg_channel_open_ack b svc auth qh smc tmc = (Except.error e2, svc3) →
      (svc3 = svc ∧ qh.channel chain.port_id tmc = none) ∨
      ((∃ c2, svc3.chains b.chain_id = some c2 ∧ c2.sequence = chain.sequence + 1) ∧
        auth.account (b.mnemonic.account_address chain.account_hrp) = none)) := by
  constructor
  · intro h
    unfold msg_connection_open_ack at h
    split at h
    · rename_i hg
      simp only [ChainService.get, hc] at hg
      exact Option.noConfusion hg
    · rename_i c hgc
      simp only [ChainService.get, hc, Option.some.injEq] at hgc
      subst hgc
      split at h
      -- client state lookup failed: no increment happened
      · rename_i htcs
        have h2 := congrArg Prod.snd h
        dsimp only at h2
        exact Or.inl ⟨h2.symm, Or.inl htcs⟩
      · rename_i tcs htcs
        split at h
        -- connection proof failed: no increment happened
        · rename_i eA hpt
          have h2 := congrArg Prod.snd h
          dsimp only at h2
          exact Or.inl ⟨h2.symm, Or.inr (get_connection_proof_err hpt)⟩
        · rename_i pt hpt
          split at h
          · rename_i eA hinc
            rw [increment_of_get hc] at hinc
            exact absurd hinc (by simp)
          · rename_i chain1 svc1 hinc
            rw [increment_of_get hc] at hinc
            injection hinc with hinc
            injection hinc with hc1 hs1
            subst hc1; subst hs1
            split at h
            -- client proof cannot fail: the client state is present
            · rename_i eA hpc
              unfold get_client_proof at hpc
              rw [htcs] at hpc
              exact absurd hpc (by simp)
            · rename_i pc hpc
              split at h
              · rename_i eA hinc2
                rw [increment_of_get (chains_update_get _ _ _)] at hinc2
                exact absurd hinc2 (by simp)
              · rename_i chain2 svc2x hinc2
                rw [increment_of_get (chains_update_get _ _ _)] at hinc2
                injection hinc2 with hinc2
                injection hinc2 with hc2 hs2
                subst hc2; subst hs2
                split at h
                -- consensus proof failed: exactly two increments happened
                · rename_i eA hpcs
                  have h2 := congrArg Prod.snd h
                  dsimp only at h2
                  subst h2
                  refine Or.inr (Or.inl ⟨⟨_, chains_update_get _ _ _, rfl⟩, ?_⟩)
                  rcases get_consensus_proof_err hpcs with hn | ⟨tcs2, htcs2, hbad⟩
                  · rw [htcs] at hn
                    exact Option.noConfusion hn
                  · rw [htcs] at htcs2
                    injection htcs2 with htcs2
                    subst htcs2
                    exact ⟨tcs, htcs, hbad⟩
                · rename_i pcs hpcs
                  split at h
                  · rename_i eA hinc3
                    rw [increment_of_get (chains_update_get _ _ _)] at hinc3
                    exact absurd hinc3 (by simp)
                  · rename_i chain3 svc3x hinc3
                    rw [increment_of_get (chains_update_get _ _ _)] at hinc3
                    injection hinc3 with hinc3
                    injection hinc3 with hc3 hs3
                    subst hc3; subst hs3
                    -- the build step failed: all three increments happened
                    have h1 := congrArg Prod.fst h
                    have h2 := congrArg Prod.snd h
                    dsimp only at h1 h2
                    subst h2
                    exact Or.inr (Or.inr ⟨⟨_, chains_update_get _ _ _, rfl⟩,
                      build_err h1⟩)
  · intro h
    unfold msg_channel_open_ack at h
    split at h
    · rename_i hg
      simp only [ChainService.get, hc] at hg
      exact Option.noConfusion hg
    · rename_i c hgc
      simp only [ChainService.get, hc, Option.some.injEq] at hgc
      subst hgc
      split at h
      -- channel proof failed: no increment happened
      · rename_i eB hpt
        have h2 := congrArg Prod.snd h
        dsimp only at h2
        exact Or.inl ⟨h2.symm, get_channel_proof_err hpt⟩
      · rename_i pt hpt
        split at h
        · rename_i eB hinc
          rw [increment_of_get hc] at hinc
          exact absurd hinc (by simp)
        · rename_i chain1 svc1 hinc
          rw [increment_of_get hc] at hinc
          injection hinc with hinc
          injection hinc with hc1 hs1
          subst hc1; subst hs1
          -- the build step failed: the one increment happened
          have h1 := congrArg Prod.fst h
          have h2 := congrArg Prod.snd h
          dsimp only at h1 h2
          subst h2
          exact Or.inr ⟨⟨_, chains_update_get _ _ _, rfl⟩, build_err h1⟩

/-- Witness for claim C5: a consensus state made missing fails the third
proof of `msg_connection_open_ack` with the sequence left at 12, and a
failing account lookup fails `msg_channel_open_ack` after its one
increment with the sequence left at 11. -/
theorem factories_error_no_rollback_witness :
    wSvc.chains wB.chain_id = some wChain ∧
    msg_connection_open_ack wB wSvc wAuth wQhNoCons "conn-sm" "07-tendermint-0"
      "connection-0" = (Except.error wConnAckErr, wConnAckE.2) ∧
    msg_channel_open_ack wB wSvc wAuthNone wQh "channel-sm" "channel-0"
      = (Except.error wChanAckErr, wChanAckE.2) ∧
    ((wConnAckE.2 = wSvc ∧ (wQhNoCons.client_state "07-tendermint-0" = none ∨
        wQhNoCons.connection "connection-0" = none)) ∨
      ((∃ c2, (wConnAckE.2).chains wB.chain_id = some c2 ∧
          c2.sequence = wChain.sequence + 2) ∧
        (∃ tcs, wQhNoCons.client_state "07-tendermint-0" = some tcs ∧
          (tcs.latest_height = none ∨
            ∃ ht, tcs.latest_height = some ht ∧
              wQhNoCons.consensus_state "07-tendermint-0" ht = none))) ∨
      ((∃ c2, (wConnAckE.2).chains wB.chain_id = some c2 ∧
          c2.sequence = wChain.sequence + 3) ∧
        wAuth.account (wB.mnemonic.account_address wChain.account_hrp) = none)) ∧
    ((wChanAckE.2 = wSvc ∧ wQh.channel wChain.port_id "channel-0" = none) ∨
      ((∃ c2, (wChanAckE.2).chains wB.chain_id = some c2 ∧
          c2.sequence = wChain.sequence + 1) ∧
        wAuthNone.account (wB.mnemonic.account_address wChain.account_hrp) = none)) :=
  ⟨rfl, rfl, rfl,
   (factories_error_no_rollback wB wSvc wConnAckE.2 wSvc wAuth wQhNoCons
     "conn-sm" "07-tendermint-0" "connection-0" "x" "y" wChain wConnAckErr "z"
     rfl).1 rfl,
   (factories_error_no_rollback wB wSvc wSvc wChanAckE.2 wAuthNone wQh
     "x" "y" "z" "channel-sm" "channel-0" wChain "w" wChanAckErr
     rfl).2 rfl⟩

/-- Claim C6: every successful `msg_create_solo_machine_client` builds a
`MsgCreateClient` whose client state is the solo-machine client state with
`sequence = chain.sequence`, `frozen_sequence = 0`,
`allow_update_after_proposal = true`, containing a consensus state with the
derived public key, the diversifier and the consensus timestamp of the
chain; and the chain service is returned unchanged (no
`increment_sequence`). -/
theorem create_solo_machine_client_payload
    (b : TransactionBuilder) (svc svc2 : ChainService) (auth : AuthClient)
    (chain : Chain) (tx : TxRaw)
    (hc : svc.chains b.chain_id = some chain)
    (h : msg_create_solo_machine_client b svc auth = (Except.ok tx, svc2)) :
    svc2 = svc ∧
    tx.body_bytes = encodeTxBody (build_tx_body b [MsgCreateClient.toAny
      { client_state := some (SoloMachineClientState.toAny
          { sequence := chain.sequence, frozen_sequence := 0,
            consensus_state := some
              { public_key := some b.mnemonic.public_key_any,
                diversifier := chain.diversifier,
                timestamp := chain.consensus_timestamp },
            allow_update_after_proposal := true }),
        consensus_state := some (SoloMachineConsensusState.toAny
          { public_key := some b.mnemonic.public_key_any,
            diversifier := chain.diversifier,
            timestamp := chain.consensus_timestamp }),
        signer := b.mnemonic.account_address chain.account_hrp }]) := by
  unfold msg_create_solo_machine_client at h
  split at h
  · rename_i hg
    simp only [ChainService.get, hc] at hg
    exact Option.noConfusion hg
  · rename_i c hgc
    simp only [ChainService.get, hc, Option.some.injEq] at hgc
    subst hgc
    have h1 := congrArg Prod.fst h
    have h2 := congrArg Prod.snd h
    dsimp only at h1 h2
    obtain ⟨an, asq, hacc, hbody, hauth, hsig⟩ := build_ok h1
    exact ⟨h2.symm, hbody⟩

/-- Witness for claim C6 on the concrete scenario. -/
theorem create_solo_machine_client_payload_witness :
    wSvc.chains wB.chain_id = some wChain ∧
    msg_create_solo_machine_client wB wSvc wAuth = (Except.ok wCreateTx, wCreate.2) ∧
    (wCreate.2 = wSvc ∧
    wCreateTx.body_bytes = encodeTxBody (build_tx_body wB [MsgCreateClient.toAny
      { client_state := some (SoloMachineClientState.toAny
          { sequence := wChain.sequence, frozen_sequence := 0,
            consensus_state := some
              { public_key := some wB.mnemonic.public_key_any,
                diversifier := wChain.diversifier,
                timestamp := wChain.consensus_timestamp },
            allow_update_after_proposal := true }),
        consensus_state := some (SoloMachineConsensusState.toAny
          { public_key := some wB.mnemonic.public_key_any,
            diversifier := wChain.diversifier,
            timestamp := wChain.consensus_timestamp }),
        signer := wB.mnemonic.account_address wChain.account_hrp }])) :=
  ⟨rfl, rfl,
   create_solo_machine_client_payload wB wSvc wCreate.2 wAuth wChain wCreateTx rfl rfl⟩

/-- Claim C7: every successful `msg_connection_open_init` builds a
`MsgConnectionOpenInit` whose counterparty has empty connection id and the
three raw bytes of `"ibc"` as its commitment key, whose version is
identifier `"1"` with features `ORDER_ORDERED`, `ORDER_UNORDERED` in that
order, and whose delay period is 0. -/
theorem connection_open_init_payload
    (b : TransactionBuilder) (svc svc2 : ChainService) (auth : AuthClient)
    (smc tmc : String) (chain : Chain) (tx : TxRaw)
    (hc : svc.chains b.chain_id = some chain)
    (h : msg_connection_open_init b svc auth smc tmc = (Except.ok tx, svc2)) :
    strBytes "ibc" = [105, 98, 99] ∧
    tx.body_bytes = encodeTxBody (build_tx_body b [MsgConnectionOpenInit.toAny
      { client_id := smc,
        counterparty := some
          { client_id := tmc, connection_id := "",
            pfx := some { key_pfx := strBytes "ibc" } },
        version := some
          { identifier := "1",
            features := ["ORDER_ORDERED", "ORDER_UNORDERED"] },
        delay_period := 0,
        signer := b.mnemonic.account_address chain.account_hrp }]) := by
  unfold msg_connection_open_init at h
  split at h
  · rename_i hg
    simp only [ChainService.get, hc] at hg
    exact Option.noConfusion hg
  · rename_i c hgc
    simp only [ChainService.get, hc, Option.some.injEq] at hgc
    subst hgc
    have h1 := congrArg Prod.fst h
    dsimp only at h1
    obtain ⟨an, asq, hacc, hbody, hauth, hsig⟩ := build_ok h1
    exact ⟨by decide, hbody⟩

/-- Witness for claim C7 on the concrete scenario. -/
theorem connection_open_init_payload_witness :
    wSvc.chains wB.chain_id = some wChain ∧
    msg_connection_open_init wB wSvc wAuth "06-solomachine-0" "07-tendermint-0"
      = (Except.ok wConnInitTx, wConnInit.2) ∧
    (strBytes "ibc" = [105, 98, 99] ∧
    wConnInitTx.body_bytes = encodeTxBody (build_tx_body wB [MsgConnectionOpenInit.toAny
      { client_id := "06-solomachine-0",
        counterparty := some
          { client_id := "07-tendermint-0", connection_id := "",
            pfx := some { key_pfx := strBytes "ibc" } },
        version := some
          { identifier := "1",
            features := ["ORDER_ORDERED", "ORDER_UNORDERED"] },
        delay_period := 0,
        signer := wB.mnemonic.account_address wChain.account_hrp }])) :=
  ⟨rfl, rfl,
   connection_open_init_payload wB wSvc wConnInit.2 wAuth "06-solomachine-0"
     "07-tendermint-0" wChain wConnInitTx rfl rfl⟩

/-- Claim C8: whenever the RPC status reports `catching_up = true`,
`msg_create_tendermint_client` returns an error, performs no state mutation
(the chain service is returned exactly as given) and returns no
client/consensus pair. -/
theorem create_tendermint_client_catching_up
    (b : TransactionBuilder) (svc : ChainService) (staking : Option Int)
    (rpc : RpcClient) (st : StatusResponse)
    (hst : rpc.status = some st) (hcu : st.catching_up = true) :
    ∃ e, msg_create_tendermint_client b svc staking rpc = (Except.error e, svc) := by
  unfold msg_create_tendermint_client
  cases hg : ChainService.get svc b.chain_id with
  | none => exact ⟨_, rfl⟩
  | some chain =>
    cases staking with
    | none => exact ⟨_, rfl⟩
    | some d =>
      have hlh : get_latest_height chain rpc = Except.error
          ("node at " ++ chain.rpc_addr ++ " running chain " ++ chain.id
            ++ " not caught up") := by
        unfold get_latest_height
        simp [hst, hcu]
      simp only [get_unbonding_period, hlh]
      exact ⟨_, rfl⟩

/-- Witness for claim C8: an RPC client whose status reports catching up. -/
theorem create_tendermint_client_catching_up_witness :
    wRpcCatching.status = some wStatusCatching ∧
    wStatusCatching.catching_up = true ∧
    (∃ e, msg_create_tendermint_client wB wSvc (some 21) wRpcCatching
      = (Except.error e, wSvc)) :=
  ⟨rfl, rfl,
   create_tendermint_client_catching_up wB wSvc (some 21) wRpcCatching
     wStatusCatching rfl rfl⟩

/-- Claim C9: the factories are deterministic functions of the chain
snapshot, the mnemonic, the memo, the identifiers and the collaborator
responses: two calls on identical inputs return byte-identical `TxRaw`
values.  (ECDSA signing is modelled deterministically, as the RFC6979
scheme of the source is.) -/
theorem factories_deterministic
    (b : TransactionBuilder) (svc svcA svcB : ChainService) (auth : AuthClient)
    (qh : QueryHandler) (i1 i2 i3 : String) (tx1 tx2 : TxRaw) :
    (msg_create_solo_machine_client b svc auth = (Except.ok tx1, svcA) →
      msg_create_solo_machine_client b svc auth = (Except.ok tx2, svcB) → tx1 = tx2) ∧
    (msg_connection_open_init b svc auth i1 i2 = (Except.ok tx1, svcA) →
      msg_connection_open_init b svc auth i1 i2 = (Except.ok tx2, svcB) → tx1 = tx2) ∧
    (msg_connection_open_ack b svc auth qh i1 i2 i3 = (Except.ok tx1, svcA) →
      msg_connection_open_ack b svc auth qh i1 i2 i3 = (Except.ok tx2, svcB) → tx1 = tx2) ∧
    (msg_channel_open_init b svc auth i1 = (Except.ok tx1, svcA) →
      msg_channel_open_init b svc auth i1 = (Except.ok tx2, svcB) → tx1 = tx2) ∧
    (msg_channel_open_ack b svc auth qh i1 i2 = (Except.ok tx1, svcA) →
      msg_channel_open_ack b svc auth qh i1 i2 = (Except.ok tx2, svcB) → tx1 = tx2) := by
  refine ⟨?_, ?_, ?_, ?_, ?_⟩ <;>
  · intro h1 h2
    rw [h1] at h2
    injection h2 with h3 h4
    injection h3 with h5

/-- Witness for claim C9: two factories replayed on the concrete scenario. -/
theorem factories_deterministic_witness :
    msg_create_solo_machine_client wB wSvc wAuth = (Except.ok wCreateTx, wCreate.2) ∧
    msg_connection_open_ack wB wSvc wAuth wQh "conn-sm" "07-tendermint-0" "connection-0"
      = (Except.ok wConnAckTx, wConnAck.2) ∧
    wCreateTx = wCreateTx ∧ wConnAckTx = wConnAckTx :=
  ⟨rfl, rfl,
   (factories_deterministic wB wSvc wCreate.2 wCreate.2 wAuth wQh "x" "y" "z"
     wCreateTx wCreateTx).1 rfl rfl,
   (factories_deterministic wB wSvc wConnAck.2 wConnAck.2 wAuth wQh "conn-sm"
     "07-tendermint-0" "connection-0" wConnAckTx wConnAckTx).2.2.1 rfl rfl⟩

/-- Claim C10: every payload of `msg_channel_open_init` uses `chain.port_id`
both as the message port and as the counterparty port, an empty counterparty
channel id, channel state `INIT` with ordering `UNORDERED`, and
`connection_hops` exactly the one-element list with the solo machine
connection id. -/
theorem channel_open_init_payload
    (b : TransactionBuilder) (svc svc2 : ChainService) (auth : AuthClient)
    (smc : String) (chain : Chain) (tx : TxRaw)
    (hc : svc.chains b.chain_id = some chain)
    (h : msg_channel_open_init b svc auth smc = (Except.ok tx, svc2)) :
    tx.body_bytes = encodeTxBody (build_tx_body b [MsgChannelOpenInit.toAny
      { port_id := chain.port_id,
        channel := some
          { state := channelStateInit, ordering := channelOrderUnordered,
            counterparty := some { port_id := chain.port_id, channel_id := "" },
            connection_hops := [smc], version := "ics20-1" },
        signer := b.mnemonic.account_address chain.account_hrp }]) := by
  unfold msg_channel_open_init at h
  split at h
  · rename_i hg
    simp only [ChainService.get, hc] at hg
    exact Option.noConfusion hg
  · rename_i c hgc
    simp only [ChainService.get, hc, Option.some.injEq] at hgc
    subst hgc
    have h1 := congrArg Prod.fst h
    dsimp only at h1
    obtain ⟨an, asq, hacc, hbody, hauth, hsig⟩ := build_ok h1
    exact hbody

/-- Witness for claim C10 on the concrete scenario. -/
theorem channel_open_init_payload_witness :
    wSvc.chains wB.chain_id = some wChain ∧
    msg_channel_open_init wB wSvc wAuth "connection-0"
      = (Except.ok wChanInitTx, wChanInit.2) ∧
    wChanInitTx.body_bytes = encodeTxBody (build_tx_body wB [MsgChannelOpenInit.toAny
      { port_id := wChain.port_id,
        channel := some
          { state := channelStateInit, ordering := channelOrderUnordered,
            counterparty := some { port_id := wChain.port_id, channel_id := "" },
            connection_hops := ["connection-0"], version := "ics20-1" },
        signer := wB.mnemonic.account_address wChain.account_hrp }]) :=
  ⟨rfl, rfl,
   channel_open_init_payload wB wSvc wChanInit.2 wAuth "connection-0" wChain
     wChanInitTx rfl rfl⟩
